import Mathlib

/-!
Verification development for the borrowing lifecycle engine of a library
management backend (`src/backend/app.py`).

The engine's state lives in three MySQL tables (`readers`, `books`,
`borrows`); we embed it as a `DB` structure of lists of records, keeping
only the columns the lifecycle code reads or writes.  Status columns are
MySQL enum strings and are embedded as `String`, exactly as the Python
code compares them.  Dates are embedded as day numbers (`Int`), with the
clock value `today` passed explicitly where the code calls
`datetime.now().date()` or SQL `CURDATE()`.

Each Flask handler becomes a pure function `… → Except ApiError α × DB`:
the first component is the HTTP response (error vs. success payload), the
second the database state after the call.  Two different write disciplines
occur in the source and are embedded faithfully:

* `create_borrow` and `update_borrow_status` open one connection, issue
  their statements on one cursor and `commit()` once, with `rollback()`
  on any exception.  We model this with a `fail : Bool` parameter: when
  the transaction fails, the state is returned unchanged.

* `return_book` issues its two UPDATE statements through `execute_query`,
  which opens a fresh connection *per statement* and commits each one
  independently, swallowing exceptions (it returns `None`, which the
  caller ignores).  We model this with one failure flag per statement: a
  failed statement is simply skipped, the other one still commits, and
  the handler still reports success — there is no shared transaction.
-/

/-- A row of the `readers` table (lifecycle-relevant columns only:
the engine reads `id`, `status` and `max_borrow_count`). -/
structure Reader where
  id : Nat
  status : String
  max_borrow_count : Nat
deriving DecidableEq, Repr

/-- A row of the `books` table (lifecycle-relevant columns only:
the engine reads `id` and `status`). -/
structure Book where
  id : Nat
  status : String
deriving DecidableEq, Repr

/-- A row of the `borrows` table. -/
structure Borrow where
  id : Nat
  reader_id : Nat
  book_id : Nat
  borrow_date : Int
  due_date : Int
  return_date : Option Int
  renew_count : Nat
  fine_amount : Option Int
  status : String
  notes : String
deriving DecidableEq, Repr

/-- Database state: the three tables plus the AUTO_INCREMENT counter of
`borrows` (the source reads the id of a fresh borrow via
`cursor.lastrowid`). -/
structure DB where
  readers : List Reader
  books : List Book
  borrows : List Borrow
  next_borrow_id : Nat
deriving DecidableEq, Repr

/-- The distinct error responses the lifecycle handlers return.  Each
constructor corresponds to one error message/HTTP status in the source. -/
inductive ApiError where
  /-- HTTP 400 `缺少必需字段: <field>` -/
  | missingField (field : String)
  /-- HTTP 400 `读者不存在` -/
  | readerNotFound
  /-- HTTP 400 `读者状态异常，无法借阅` -/
  | readerNotActive
  /-- HTTP 400 `图书不存在` -/
  | bookNotFound
  /-- HTTP 400 `图书已丢失，无法借阅` -/
  | bookLost
  /-- HTTP 400 `图书已被借出，无法借阅` -/
  | bookBorrowed
  /-- HTTP 400 `已达到最大借阅数量限制` -/
  | borrowLimitReached
  /-- HTTP 400 out-of-range input (`续借天数必须在1-90天之间`, `罚款金额必须大于0`, bad status value) -/
  | validationError
  /-- HTTP 404 target record absent or in the wrong state (`借阅记录不存在(或已归还)`, `读者不存在`) -/
  | notFound
  /-- HTTP 400 `已达到最大续借次数` -/
  | renewLimitExceeded
  /-- HTTP 500 transactional failure, rolled back -/
  | storageError
deriving DecidableEq, Repr

deriving instance DecidableEq for Except

/-- Embeds `SELECT … FROM readers WHERE id = %s`. -/
def findReader (db : DB) (rid : Nat) : Option Reader :=
  db.readers.find? (fun r => r.id == rid)

/-- Embeds `SELECT … FROM books WHERE id = %s`. -/
def findBook (db : DB) (bid : Nat) : Option Book :=
  db.books.find? (fun b => b.id == bid)

/-- Embeds `SELECT … FROM borrows WHERE id = %s`. -/
def findBorrow (db : DB) (bid : Nat) : Option Borrow :=
  db.borrows.find? (fun b => b.id == bid)

/-- Embeds `SELECT * FROM borrows WHERE id = %s AND status = 'borrowed'`. -/
def findActiveBorrow (db : DB) (bid : Nat) : Option Borrow :=
  db.borrows.find? (fun b => b.id == bid && b.status == "borrowed")

/-- Embeds `SELECT COUNT(*) FROM borrows WHERE reader_id = %s AND status = 'borrowed'`. -/
def activeBorrowCount (db : DB) (rid : Nat) : Nat :=
  (db.borrows.filter (fun b => b.reader_id == rid && b.status == "borrowed")).length

/-- Handler `POST /api/borrows` (`create_borrow` in `app.py`).  Request fields are
`Option`s because the handler first checks each of `reader_id`, `book_id`,
`borrow_days` for presence (`if field not in data`), in that order.  Then
it runs the eligibility checks in source order, each an early `return`
with the state untouched.  On pass it opens a transaction that inserts
the borrow row (`status='borrowed'`, `due_date = today + borrow_days`,
`renew_count`/`return_date`/`fine_amount` at their column defaults) and
sets the book's status to `borrowed`; `fail = true` models an exception
inside the transaction, which rolls back, leaving the state unchanged. -/
def create_borrow (today : Int) (reader_id? book_id? : Option Nat)
    (borrow_days? : Option Int) (notes : String) (fail : Bool) (db : DB) :
    Except ApiError Nat × DB :=
  match reader_id? with
  | none => (.error (.missingField ("reader_id")), db)
  | some rid =>
    match book_id? with
    | none => (.error (.missingField ("book_id")), db)
    | some bid =>
      match borrow_days? with
      | none => (.error (.missingField ("borrow_days")), db)
      | some borrow_days =>
        match findReader db rid with
        | none => (.error .readerNotFound, db)
        | some reader =>
          if reader.status != "active" then (.error .readerNotActive, db)
          else
            match findBook db bid with
            | none => (.error .bookNotFound, db)
            | some book =>
              if book.status == "lost" then (.error .bookLost, db)
              else if book.status == "borrowed" then (.error .bookBorrowed, db)
              else if reader.max_borrow_count ≤ activeBorrowCount db rid then
                (.error .borrowLimitReached, db)
              else if fail then (.error .storageError, db)
              else
                let newBorrow : Borrow :=
                  { id := db.next_borrow_id, reader_id := rid, book_id := bid,
                    borrow_date := today, due_date := today + borrow_days,
                    return_date := none, renew_count := 0, fine_amount := none,
                    status := "borrowed", notes := notes }
                (.ok db.next_borrow_id,
                 { db with
                    borrows := db.borrows ++ [newBorrow],
                    books := db.books.map (fun b =>
                      if b.id == bid then { b with status := "borrowed" } else b),
                    next_borrow_id := db.next_borrow_id + 1 })

/-- Handler `POST /api/borrows/<id>/return` (`return_book` in `app.py`).  After
the lookup, the two UPDATEs run through `execute_query`, i.e. each on its
own auto-committed connection with exceptions swallowed; `failBorrowWrite`
and `failBookWrite` model each statement failing independently.  The
handler ignores both results and reports success either way. -/
def return_book (today : Int) (borrow_id : Nat)
    (failBorrowWrite failBookWrite : Bool) (db : DB) :
    Except ApiError Unit × DB :=
  match findActiveBorrow db borrow_id with
  | none => (.error .notFound, db)
  | some borrow =>
    let db1 :=
      if failBorrowWrite then db
      else { db with borrows := db.borrows.map (fun b =>
              if b.id == borrow_id then
                { b with status := "returned", return_date := some today }
              else b) }
    let db2 :=
      if failBookWrite then db1
      else { db1 with books := db1.books.map (fun b =>
              if b.id == borrow.book_id then { b with status := "available" } else b) }
    (.ok (), db2)

/-- Handler `POST /api/borrows/<id>/renew` (`renew_book` in `app.py`).  `days`
defaults to 30 when absent; the range check [1,90] runs before the record
lookup; `renew_count >= 2` is rejected after it.  The UPDATE sets
`due_date` to the value computed from the fetched row and increments
`renew_count` per row (`COALESCE(renew_count,0) + 1`).  No `today`
parameter: the new due date depends only on the stored due date. -/
def renew_book (borrow_id : Nat) (extend_days? : Option Int) (db : DB) :
    Except ApiError Int × DB :=
  let extend_days := extend_days?.getD 30
  if extend_days < 1 || 90 < extend_days then (.error .validationError, db)
  else
    match findActiveBorrow db borrow_id with
    | none => (.error .notFound, db)
    | some borrow =>
      if 2 ≤ borrow.renew_count then (.error .renewLimitExceeded, db)
      else
        let new_due := borrow.due_date + extend_days
        (.ok new_due,
         { db with borrows := db.borrows.map (fun b =>
            if b.id == borrow_id then
              { b with due_date := new_due, renew_count := b.renew_count + 1 }
            else b) })

/-- Handler `POST /api/borrows/<id>/fine` (`apply_fine` in `app.py`).  The amount
check `if not fine_amount or fine_amount <= 0` rejects an absent, zero or
negative amount; the borrow may be in any status; the UPDATE sets
`fine_amount` and `status='fined'` and never touches the book. -/
def apply_fine (borrow_id : Nat) (fine_amount? : Option Int) (db : DB) :
    Except ApiError Int × DB :=
  match fine_amount? with
  | none => (.error .validationError, db)
  | some amt =>
    if amt ≤ 0 then (.error .validationError, db)
    else
      match findBorrow db borrow_id with
      | none => (.error .notFound, db)
      | some _ =>
        (.ok amt,
         { db with borrows := db.borrows.map (fun b =>
            if b.id == borrow_id then
              { b with fine_amount := some amt, status := "fined" }
            else b) })

/-- The status values `update_borrow_status` accepts. -/
def validStatuses : List String := ["borrowed", "returned", "reserved", "damaged", "lost"]

/-- Handler `PUT /api/borrows/<id>/status` (`update_borrow_status` in `app.py`).
Both writes run on one connection committed once (`fail` models a rolled
back exception).  Target `returned` additionally sets
`return_date = CURDATE()` and the book to `available`; `lost`/`damaged`
mirror onto the book; `borrowed`/`reserved` touch only the borrow row. -/
def update_borrow_status (today : Int) (status? : Option String) (borrow_id : Nat)
    (fail : Bool) (db : DB) : Except ApiError Unit × DB :=
  match status? with
  | none => (.error (.missingField ("status")), db)
  | some status =>
    if !(validStatuses.contains status) then (.error .validationError, db)
    else
      match findBorrow db borrow_id with
      | none => (.error .notFound, db)
      | some borrow =>
        if fail then (.error .storageError, db)
        else
          let borrows' := db.borrows.map (fun b =>
            if b.id == borrow_id then
              if status == "returned" then
                { b with status := status, return_date := some today }
              else { b with status := status }
            else b)
          let books' :=
            if status == "lost" then
              db.books.map (fun b =>
                if b.id == borrow.book_id then { b with status := "lost" } else b)
            else if status == "damaged" then
              db.books.map (fun b =>
                if b.id == borrow.book_id then { b with status := "damaged" } else b)
            else if status == "returned" then
              db.books.map (fun b =>
                if b.id == borrow.book_id then { b with status := "available" } else b)
            else db.books
          (.ok (), { db with borrows := borrows', books := books' })

/-- Handler `PUT /api/readers/<id>` (`update_reader` in `app.py`) invoked with a
request body containing only `max_borrow_count`: the handler checks the
reader exists, then builds `UPDATE readers SET max_borrow_count = %s
WHERE id = %s` from the provided keys.  No check against the reader's
current number of active borrows is performed. -/
def update_reader_max (reader_id : Nat) (new_max : Nat) (db : DB) :
    Except ApiError Unit × DB :=
  match findReader db reader_id with
  | none => (.error .notFound, db)
  | some _ =>
    (.ok (),
     { db with readers := db.readers.map (fun r =>
        if r.id == reader_id then { r with max_borrow_count := new_max } else r) })

/-- The reader borrow-limit invariant of the spec: every reader's count
of `borrowed` ledger rows is at most their `max_borrow_count`. -/
def readerLimitOK (db : DB) : Bool :=
  db.readers.all (fun r => decide (activeBorrowCount db r.id ≤ r.max_borrow_count))

/-- A reader with `max_borrow_count = 3`, no borrows, one available book:
the happy-path scenario of the spec. -/
def dbHappy : DB :=
  { readers := [⟨1, "active", 3⟩], books := [⟨2, "available"⟩],
    borrows := [], next_borrow_id := 1 }

/-- One active borrow (id 1, reader 1, book 10, due day 14). -/
def dbActive : DB :=
  { readers := [⟨1, "active", 3⟩], books := [⟨10, "borrowed"⟩],
    borrows := [⟨1, 1, 10, 0, 14, none, 0, none, "borrowed", ""⟩],
    next_borrow_id := 2 }

/-- Reader 1 at their limit: `max_borrow_count = 2` with exactly two
active borrows. -/
def dbAtLimit : DB :=
  { readers := [⟨1, "active", 2⟩],
    books := [⟨10, "borrowed"⟩, ⟨11, "borrowed"⟩, ⟨12, "available"⟩],
    borrows := [⟨1, 1, 10, 0, 14, none, 0, none, "borrowed", ""⟩,
                ⟨2, 1, 11, 0, 14, none, 0, none, "borrowed", ""⟩],
    next_borrow_id := 3 }

/-- Reader 1 with `max_borrow_count = 1`, one active borrow and one
already-returned borrow. -/
def dbOneReturned : DB :=
  { readers := [⟨1, "active", 1⟩],
    books := [⟨10, "borrowed"⟩, ⟨11, "available"⟩],
    borrows := [⟨1, 1, 10, 0, 14, none, 0, none, "borrowed", ""⟩,
                ⟨2, 1, 11, 0, 10, some 10, 0, none, "returned", ""⟩],
    next_borrow_id := 3 }

/-- A damaged book next to an eligible reader. -/
def dbDamaged : DB :=
  { readers := [⟨1, "active", 3⟩], books := [⟨2, "damaged"⟩],
    borrows := [], next_borrow_id := 1 }

/-- The renewal scenario: borrow id 5 with due day 10 and
`renew_count = 0`. -/
def dbRenew : DB :=
  { readers := [⟨1, "active", 3⟩], books := [⟨10, "borrowed"⟩],
    borrows := [⟨5, 1, 10, 0, 10, none, 0, none, "borrowed", ""⟩],
    next_borrow_id := 6 }

/-- An active borrow whose `renew_count` has reached 2. -/
def dbRenewedTwice : DB :=
  { readers := [⟨1, "active", 3⟩], books := [⟨10, "borrowed"⟩],
    borrows := [⟨1, 1, 10, 0, 14, none, 2, none, "borrowed", ""⟩],
    next_borrow_id := 2 }

/- ===================== Helper lemmas ===================== -/

/-- Lemma: `find?` commutes with a row update that does not change the
searched-on columns. -/
theorem find?_map_eq_some {α : Type} {p : α → Bool} {g : α → α} {l : List α} {a : α}
    (hp : ∀ x, p (g x) = p x) (hfind : l.find? p = some a) :
    (l.map g).find? p = some (g a) := by
  induction l with
  | nil => simp at hfind
  | cons b t ih =>
    by_cases hb : p b
    · rw [List.find?_cons_of_pos _ hb] at hfind
      rw [List.map_cons, List.find?_cons_of_pos _ (by rw [hp b]; exact hb)]
      injection hfind with h
      rw [h]
    · rw [List.find?_cons_of_neg _ hb] at hfind
      rw [List.map_cons, List.find?_cons_of_neg _ (by rw [hp b]; exact hb)]
      exact ih hfind

/-- Updating rows can only shrink the set of rows matched by a filter,
as long as the update never makes the predicate become true. -/
theorem length_filter_map_le {α : Type} (p : α → Bool) (g : α → α) (l : List α)
    (h : ∀ x, p (g x) = true → p x = true) :
    ((l.map g).filter p).length ≤ (l.filter p).length := by
  induction l with
  | nil => simp
  | cons b t ih =>
    rw [List.map_cons]
    by_cases hgb : p (g b)
    · rw [List.filter_cons_of_pos hgb, List.filter_cons_of_pos (h b hgb)]
      simpa using ih
    · rw [List.filter_cons_of_neg hgb]
      by_cases hb : p b
      · rw [List.filter_cons_of_pos hb]
        exact Nat.le_succ_of_le ih
      · rw [List.filter_cons_of_neg hb]
        exact ih

/-- Specialization to the active-borrow count: a per-row update that
preserves `reader_id` and never turns a status into `borrowed` cannot
increase any reader's active-borrow count. -/
theorem count_le_of_map (g : Borrow → Borrow) (l : List Borrow) (rid : Nat)
    (hid : ∀ b, (g b).reader_id = b.reader_id)
    (hst : ∀ b, (g b).status = "borrowed" → b.status = "borrowed") :
    ((l.map g).filter (fun b => b.reader_id == rid && b.status == "borrowed")).length
      ≤ (l.filter (fun b => b.reader_id == rid && b.status == "borrowed")).length := by
  apply length_filter_map_le
  intro x hx
  simp only [Bool.and_eq_true, beq_iff_eq] at hx ⊢
  exact ⟨(hid x).symm.trans hx.1, hst x hx.2⟩

/-- The borrow-limit invariant, unfolded. -/
theorem readerLimitOK_iff {db : DB} :
    readerLimitOK db = true ↔
      ∀ r ∈ db.readers, activeBorrowCount db r.id ≤ r.max_borrow_count := by
  simp [readerLimitOK, List.all_eq_true]

/-- The invariant transfers along any state change that keeps the reader
table and does not increase any active-borrow count. -/
theorem readerLimitOK_mono (db db' : DB) (hr : db'.readers = db.readers)
    (hc : ∀ rid, activeBorrowCount db' rid ≤ activeBorrowCount db rid)
    (hinv : readerLimitOK db = true) : readerLimitOK db' = true := by
  rw [readerLimitOK_iff] at hinv ⊢
  intro r hrm
  rw [hr] at hrm
  exact le_trans (hc r.id) (hinv r hrm)

/-- The invariant is preserved by any state whose borrow table is a
per-row update that preserves `reader_id` and does not create new
`borrowed` rows (the book table and id counter are irrelevant to it). -/
theorem readerLimitOK_of_map (db : DB) (g : Borrow → Borrow)
    (books' : List Book) (n : Nat)
    (hid : ∀ b, (g b).reader_id = b.reader_id)
    (hst : ∀ b, (g b).status = "borrowed" → b.status = "borrowed")
    (hinv : readerLimitOK db = true) :
    readerLimitOK { readers := db.readers, books := books',
                    borrows := db.borrows.map g, next_borrow_id := n } = true := by
  exact readerLimitOK_mono db
    { readers := db.readers, books := books',
      borrows := db.borrows.map g, next_borrow_id := n }
    rfl (fun rid => count_le_of_map g db.borrows rid hid hst) hinv

/-- Helper: `create_borrow` against a lost book is rejected with the book-lost
error (given the reader checks, which run first, pass). -/
theorem create_borrow_lost_aux (db : DB) (today : Int) (rid bid : Nat) (days : Int)
    (notes : String) (f : Bool) (r : Reader) (bk : Book)
    (hr : findReader db rid = some r) (hra : r.status = "active")
    (hb : findBook db bid = some bk) (hlost : bk.status = "lost") :
    create_borrow today (some rid) (some bid) (some days) notes f db
      = (.error .bookLost, db) := by
  have hst' : (r.status != "active") = false := by simp [hra]
  have hlost' : (bk.status == "lost") = true := by simp [hlost]
  simp only [create_borrow.eq_def, hr, hst', hb, hlost', Bool.false_eq_true, if_false,
    if_true]

/- ===================== Claim theorems ===================== -/

/-- C1: for every eligible request (reader exists and is active, book
exists and is neither lost nor borrowed, the reader's active-borrow count
is below `max_borrow_count`, `borrow_days` a positive integer),
`create_borrow` inserts a new Borrow row with `status = borrowed` and
`due_date = today + borrow_days`, sets the book's status to `borrowed`,
performs both writes in one transaction (a failing transaction rolls back
and leaves the state unchanged), and returns the new borrow id. -/
theorem create_borrow_success (db : DB) (today : Int) (rid bid : Nat) (days : Int)
    (notes : String) (r : Reader) (bk : Book)
    (hr : findReader db rid = some r) (hra : r.status = "active")
    (hb : findBook db bid = some bk)
    (hbl : bk.status ≠ "lost") (hbb : bk.status ≠ "borrowed")
    (hcnt : activeBorrowCount db rid < r.max_borrow_count)
    (hdays : 1 ≤ days) :
    (create_borrow today (some rid) (some bid) (some days) notes false db).1
        = .ok db.next_borrow_id ∧
    (create_borrow today (some rid) (some bid) (some days) notes false db).2.borrows
        = db.borrows ++
            [{ id := db.next_borrow_id, reader_id := rid, book_id := bid,
               borrow_date := today, due_date := today + days, return_date := none,
               renew_count := 0, fine_amount := none, status := "borrowed", notes := notes }] ∧
    findBook (create_borrow today (some rid) (some bid) (some days) notes false db).2 bid
        = some { bk with status := "borrowed" } ∧
    create_borrow today (some rid) (some bid) (some days) notes true db
        = (.error .storageError, db) := by
  have hra' : (r.status != "active") = false := by simp [hra]
  have hbl' : (bk.status == "lost") = false := by simp [hbl]
  have hbb' : (bk.status == "borrowed") = false := by simp [hbb]
  have hcnt' : ¬ (r.max_borrow_count ≤ activeBorrowCount db rid) := Nat.not_le.mpr hcnt
  have hb2 : db.books.find? (fun b => b.id == bid) = some bk := hb
  have hbid : (bk.id == bid) = true := by
    have h := List.find?_some hb2
    simpa using h
  simp only [create_borrow.eq_def, hr, hb, hra', hbl', hbb', hcnt', Bool.false_eq_true,
    if_false, if_neg, Bool.true_eq_false, not_false_eq_true, if_true]
  refine ⟨trivial, trivial, ?_, trivial⟩
  unfold findBook
  rw [find?_map_eq_some (g := fun b => if b.id == bid then { b with status := "borrowed" } else b)
        (fun x => by by_cases h : x.id == bid <;> simp [h]) hb2]
  rw [if_pos hbid]

/-- Witness for C1: the spec's happy-path scenario — an active reader
with 0 of 3 borrows used and an available book; borrowing for 14 days
succeeds with due day `0 + 14` and the book becomes `borrowed`. -/
theorem create_borrow_success_witness :
    (create_borrow 0 (some 1) (some 2) (some 14) "" false dbHappy).1 = .ok 1 ∧
    (create_borrow 0 (some 1) (some 2) (some 14) "" false dbHappy).2.borrows
        = [⟨1, 1, 2, 0, 14, none, 0, none, "borrowed", ""⟩] ∧
    findBook (create_borrow 0 (some 1) (some 2) (some 14) "" false dbHappy).2 2
        = some ⟨2, "borrowed"⟩ ∧
    create_borrow 0 (some 1) (some 2) (some 14) "" true dbHappy
        = (.error .storageError, dbHappy) := by
  have h := create_borrow_success dbHappy 0 1 2 14 "" ⟨1, "active", 3⟩ ⟨2, "available"⟩
      rfl rfl rfl (by decide) (by decide) (by decide) (by decide)
  exact h

/-- C2: the function `create_borrow` evaluates the eligibility rules in source order
with the first failure winning — missing reader, then inactive reader
(these two are the spec's `ReaderNotEligible` rejections), then missing
book, then lost book, then already-borrowed book, then the borrow-count
limit — and every rejection returns the state unchanged. -/
theorem create_borrow_eligibility_order (db : DB) (today : Int) (rid bid : Nat)
    (days : Int) (notes : String) (f : Bool) :
    (findReader db rid = none →
      create_borrow today (some rid) (some bid) (some days) notes f db
        = (.error .readerNotFound, db)) ∧
    (∀ r, findReader db rid = some r → r.status ≠ "active" →
      create_borrow today (some rid) (some bid) (some days) notes f db
        = (.error .readerNotActive, db)) ∧
    (∀ r, findReader db rid = some r → r.status = "active" → findBook db bid = none →
      create_borrow today (some rid) (some bid) (some days) notes f db
        = (.error .bookNotFound, db)) ∧
    (∀ r bk, findReader db rid = some r → r.status = "active" →
      findBook db bid = some bk → bk.status = "lost" →
      create_borrow today (some rid) (some bid) (some days) notes f db
        = (.error .bookLost, db)) ∧
    (∀ r bk, findReader db rid = some r → r.status = "active" →
      findBook db bid = some bk → bk.status = "borrowed" →
      create_borrow today (some rid) (some bid) (some days) notes f db
        = (.error .bookBorrowed, db)) ∧
    (∀ r bk, findReader db rid = some r → r.status = "active" →
      findBook db bid = some bk → bk.status ≠ "lost" → bk.status ≠ "borrowed" →
      r.max_borrow_count ≤ activeBorrowCount db rid →
      create_borrow today (some rid) (some bid) (some days) notes f db
        = (.error .borrowLimitReached, db)) := by
  refine ⟨?_, ?_, ?_, ?_, ?_, ?_⟩
  · intro hr
    simp only [create_borrow.eq_def, hr]
  · intro r hr hst
    have hst' : (r.status != "active") = true := by simp [hst]
    simp only [create_borrow.eq_def, hr, hst', if_true]
  · intro r hr hst hb
    have hst' : (r.status != "active") = false := by simp [hst]
    simp only [create_borrow.eq_def, hr, hst', hb, Bool.false_eq_true, if_false]
  · intro r bk hr hst hb hlost
    have hst' : (r.status != "active") = false := by simp [hst]
    have hlost' : (bk.status == "lost") = true := by simp [hlost]
    simp only [create_borrow.eq_def, hr, hst', hb, hlost', Bool.false_eq_true, if_false,
      if_true]
  · intro r bk hr hst hb hbb
    have hst' : (r.status != "active") = false := by simp [hst]
    have hlost' : (bk.status == "lost") = false := by simp [hbb]
    have hbb' : (bk.status == "borrowed") = true := by simp [hbb]
    simp only [create_borrow.eq_def, hr, hst', hb, hlost', hbb', Bool.false_eq_true,
      if_false, if_true]
  · intro r bk hr hst hb hbl hbb hcnt
    have hst' : (r.status != "active") = false := by simp [hst]
    have hbl' : (bk.status == "lost") = false := by simp [hbl]
    have hbb' : (bk.status == "borrowed") = false := by simp [hbb]
    simp only [create_borrow.eq_def, hr, hst', hb, hbl', hbb', Bool.false_eq_true,
      if_false, if_pos hcnt]

/-- C3 (code bug evidence): the function `return_book` is NOT atomic.  On the state
with one active borrow (id 1, book 10), when the borrow-status UPDATE
succeeds but the book-status UPDATE fails, the borrow is committed as
`returned` (with `return_date` set) while the book stays `borrowed`, and
the handler still reports success — exactly the partial state the spec's
atomicity requirement forbids.  The two UPDATEs run through
`execute_query`, each on its own auto-committed connection with
exceptions swallowed, so no rollback can undo the first write. -/
theorem return_book_partial_write_bug :
    (return_book 20 1 false true dbActive).1 = .ok () ∧
    (return_book 20 1 false true dbActive).2.borrows
        = [⟨1, 1, 10, 0, 14, some 20, 0, none, "returned", ""⟩] ∧
    (return_book 20 1 false true dbActive).2.books = [⟨10, "borrowed"⟩] := by
  decide

/-- C4: for a renewal with `extend_days ∈ [1, 90]` of an active borrow
with `renew_count < 2`, the new due date is the stored due date plus
`extend_days` (the function does not even take the current date, so the
extension is from the old due date regardless of when the renewal
happens) and `renew_count` is incremented; `extend_days` outside `[1,90]`
is rejected with a validation error; a borrow that is missing or not in
status `borrowed` is rejected as not found. -/
theorem renew_book_spec (db : DB) (borrow_id : Nat) (ed : Int) :
    (∀ b, findActiveBorrow db borrow_id = some b → 1 ≤ ed → ed ≤ 90 →
      b.renew_count < 2 →
      renew_book borrow_id (some ed) db
        = (.ok (b.due_date + ed),
           { db with borrows := db.borrows.map (fun x =>
              if x.id == borrow_id then
                { x with due_date := b.due_date + ed, renew_count := x.renew_count + 1 }
              else x) })) ∧
    (ed < 1 ∨ 90 < ed →
      renew_book borrow_id (some ed) db = (.error .validationError, db)) ∧
    (1 ≤ ed → ed ≤ 90 → findActiveBorrow db borrow_id = none →
      renew_book borrow_id (some ed) db = (.error .notFound, db)) := by
  refine ⟨?_, ?_, ?_⟩
  · intro b hb h1 h2 hrc
    have hc : (decide (ed < 1) || decide (90 < ed)) = false := by
      simp only [Bool.or_eq_false_iff, decide_eq_false_iff_not]
      exact ⟨not_lt.mpr h1, not_lt.mpr h2⟩
    have hrc' : ¬ (2 ≤ b.renew_count) := Nat.not_le.mpr hrc
    simp only [renew_book.eq_def, Option.getD_some, hc, Bool.false_eq_true, if_false,
      hb, if_neg hrc']
  · intro h
    have hc : (decide (ed < 1) || decide (90 < ed)) = true := by
      rcases h with h | h <;> simp [h]
    simp only [renew_book.eq_def, Option.getD_some, hc, if_true]
  · intro h1 h2 hnone
    have hc : (decide (ed < 1) || decide (90 < ed)) = false := by
      simp only [Bool.or_eq_false_iff, decide_eq_false_iff_not]
      exact ⟨not_lt.mpr h1, not_lt.mpr h2⟩
    simp only [renew_book.eq_def, Option.getD_some, hc, Bool.false_eq_true, if_false,
      hnone]

/-- Witness for C4: the spec's renewal scenario in day numbers — borrow 5
with due day 10 renewed by 30 gets due day 40 = 10 + 30 (not
today + 30) and `renew_count` goes from 0 to 1. -/
theorem renew_book_spec_witness :
    renew_book 5 (some 30) dbRenew
      = (.ok 40,
         { readers := [⟨1, "active", 3⟩], books := [⟨10, "borrowed"⟩],
           borrows := [⟨5, 1, 10, 0, 40, none, 1, none, "borrowed", ""⟩],
           next_borrow_id := 6 }) := by
  have h := (renew_book_spec dbRenew 5 30).1 ⟨5, 1, 10, 0, 10, none, 0, none, "borrowed", ""⟩
      rfl (by decide) (by decide) (by decide)
  exact h

/-- C7: the function `return_book` fails with not-found whenever no borrow with the
given id is in status `borrowed` — an absent id and an already-returned
borrow are treated identically — and the failing call changes no state;
in particular a second call after a successful return fails with
not-found instead of silently succeeding. -/
theorem return_book_not_idempotent (db : DB) (today today2 : Int) (bid : Nat)
    (f1 f2 f1' f2' : Bool) :
    (findActiveBorrow db bid = none →
      return_book today bid f1 f2 db = (.error .notFound, db)) ∧
    (∀ b, findActiveBorrow db bid = some b →
      (return_book today bid false f2 db).1 = .ok () ∧
      return_book today2 bid f1' f2' (return_book today bid false f2 db).2
        = (.error .notFound, (return_book today bid false f2 db).2)) := by
  constructor
  · intro hnone
    simp only [return_book.eq_def, hnone]
  · intro b hb
    have hdb2 : (return_book today bid false f2 db).2.borrows
        = db.borrows.map (fun x =>
            if x.id == bid then { x with status := "returned", return_date := some today }
            else x) := by
      cases f2 <;>
        simp only [return_book.eq_def, hb, Bool.false_eq_true, if_false, if_true]
    have hnone2 : findActiveBorrow (return_book today bid false f2 db).2 bid = none := by
      unfold findActiveBorrow
      rw [hdb2, List.find?_eq_none]
      intro x hx
      rcases List.mem_map.mp hx with ⟨y, _, rfl⟩
      by_cases h : y.id == bid <;> simp [h]
    constructor
    · simp only [return_book.eq_def, hb]
    · generalize hg : (return_book today bid false f2 db).2 = X at hnone2 ⊢
      simp only [return_book.eq_def, hnone2]

/-- Witness for C7: returning the active borrow 1 succeeds; returning it
again fails with not-found and leaves the state as it was. -/
theorem return_book_not_idempotent_witness :
    (return_book 20 1 false false dbActive).1 = .ok () ∧
    return_book 30 1 false false (return_book 20 1 false false dbActive).2
      = (.error .notFound, (return_book 20 1 false false dbActive).2) := by
  exact (return_book_not_idempotent dbActive 20 30 1 false false false false).2
    ⟨1, 1, 10, 0, 14, none, 0, none, "borrowed", ""⟩ rfl

/-- C8 counterexample: the claim says a third renewal fails with the
renewal-limit error regardless of the extend_days requested.  On a
borrow with `renew_count = 2`, requesting 100 days fails with the
validation error instead: the range check runs before the limit check. -/
theorem renew_limit_error_shadowed :
    renew_book 1 (some 100) dbRenewedTwice = (.error .validationError, dbRenewedTwice) ∧
    ApiError.validationError ≠ ApiError.renewLimitExceeded := by
  decide

/-- C8 (amended): on a borrow with `renew_count ≥ 2`, a renew request
with `extend_days ∈ [1, 90]` fails with the renewal-limit error, and one
with `extend_days` outside `[1, 90]` fails with the validation error
(the range check is evaluated first); in both cases the state — due date
and renew count included — is unchanged. -/
theorem renew_limit_bounded (db : DB) (bid : Nat) (ed : Int) (b : Borrow)
    (hfind : findActiveBorrow db bid = some b) (hrc : 2 ≤ b.renew_count) :
    (1 ≤ ed → ed ≤ 90 →
      renew_book bid (some ed) db = (.error .renewLimitExceeded, db)) ∧
    (ed < 1 ∨ 90 < ed →
      renew_book bid (some ed) db = (.error .validationError, db)) := by
  constructor
  · intro h1 h2
    have hc : (decide (ed < 1) || decide (90 < ed)) = false := by
      simp only [Bool.or_eq_false_iff, decide_eq_false_iff_not]
      exact ⟨not_lt.mpr h1, not_lt.mpr h2⟩
    simp only [renew_book.eq_def, Option.getD_some, hc, Bool.false_eq_true, if_false,
      hfind, if_pos hrc]
  · intro h
    have hc : (decide (ed < 1) || decide (90 < ed)) = true := by
      rcases h with h | h <;> simp [h]
    simp only [renew_book.eq_def, Option.getD_some, hc, if_true]

/-- Witness for C8: a third renewal of borrow 1 (renewed twice already)
with a valid 30-day request fails with the renewal-limit error and
changes nothing. -/
theorem renew_limit_bounded_witness :
    renew_book 1 (some 30) dbRenewedTwice
      = (.error .renewLimitExceeded, dbRenewedTwice) := by
  exact (renew_limit_bounded dbRenewedTwice 1 30
    ⟨1, 1, 10, 0, 14, none, 2, none, "borrowed", ""⟩ rfl (by decide)).1
    (by decide) (by decide)

/-- C10 (implicit): fining an active borrow strands the book.
`apply_fine` with a positive amount on a borrow in status `borrowed`
sets the borrow to `fined` and records the amount, leaves the book table
— and hence the book's `borrowed` status — untouched, and afterwards
`return_book` on that borrow fails with not-found (no borrow with
status `borrowed` exists under that id any more), with no state change.
So the book can never be made `available` again through `return_book`. -/
theorem apply_fine_strands_book (db : DB) (today : Int) (bid : Nat) (amt : Int)
    (b : Borrow) (f1 f2 : Bool)
    (hb : findBorrow db bid = some b) (hst : b.status = "borrowed")
    (hamt : 0 < amt) :
    (apply_fine bid (some amt) db).1 = .ok amt ∧
    (apply_fine bid (some amt) db).2.books = db.books ∧
    findBorrow (apply_fine bid (some amt) db).2 bid
      = some { b with fine_amount := some amt, status := "fined" } ∧
    return_book today bid f1 f2 ((apply_fine bid (some amt) db).2)
      = (.error .notFound, (apply_fine bid (some amt) db).2) := by
  have hamt' : ¬ (amt ≤ 0) := not_le.mpr hamt
  have hb2 : db.borrows.find? (fun x => x.id == bid) = some b := hb
  have hbid : (b.id == bid) = true := by
    have h := List.find?_some hb2
    simpa using h
  have hfine : apply_fine bid (some amt) db
      = (.ok amt,
         { db with borrows := db.borrows.map (fun x =>
            if x.id == bid then { x with fine_amount := some amt, status := "fined" }
            else x) }) := by
    simp only [apply_fine.eq_def, if_neg hamt', hb]
  have hnone : findActiveBorrow (apply_fine bid (some amt) db).2 bid = none := by
    rw [hfine]
    unfold findActiveBorrow
    rw [List.find?_eq_none]
    intro x hx
    rcases List.mem_map.mp hx with ⟨y, _, rfl⟩
    by_cases h : y.id == bid <;> simp [h]
  refine ⟨?_, ?_, ?_, ?_⟩
  · rw [hfine]
  · rw [hfine]
  · rw [hfine]
    unfold findBorrow
    rw [find?_map_eq_some
          (g := fun x => if x.id == bid then { x with fine_amount := some amt, status := "fined" } else x)
          (fun x => by by_cases h : x.id == bid <;> simp [h]) hb2]
    rw [if_pos hbid]
  · generalize hg : (apply_fine bid (some amt) db).2 = X at hnone ⊢
    simp only [return_book.eq_def, hnone]

/-- Witness for C10: fining the active borrow 1 by 5 units makes it
`fined`, keeps book 10 `borrowed`, and a subsequent return fails. -/
theorem apply_fine_strands_book_witness :
    (apply_fine 1 (some 5) dbActive).1 = .ok 5 ∧
    (apply_fine 1 (some 5) dbActive).2.books = dbActive.books ∧
    findBorrow (apply_fine 1 (some 5) dbActive).2 1
      = some ⟨1, 1, 10, 0, 14, none, 0, some 5, "fined", ""⟩ ∧
    return_book 30 1 false false ((apply_fine 1 (some 5) dbActive).2)
      = (.error .notFound, (apply_fine 1 (some 5) dbActive).2) := by
  exact apply_fine_strands_book dbActive 30 1 5
    ⟨1, 1, 10, 0, 14, none, 0, none, "borrowed", ""⟩ false false rfl rfl (by decide)

/-- Witness for C2: the spec's limit scenario — reader 1 is at the limit
(2 of 2 active borrows); borrowing the available book 12 is rejected with
the borrow-limit error and the state is unchanged. -/
theorem create_borrow_eligibility_order_witness :
    create_borrow 0 (some 1) (some 12) (some 14) "" false dbAtLimit
      = (.error .borrowLimitReached, dbAtLimit) := by
  exact (create_borrow_eligibility_order dbAtLimit 0 1 12 14 "" false).2.2.2.2.2
    ⟨1, "active", 2⟩ ⟨12, "available"⟩ rfl rfl rfl (by decide) (by decide) (by decide)

/-- C6 counterexample: a `damaged` book is NOT blocked by the eligibility
checks.  `create_borrow` only rejects book status `lost` and `borrowed`
(the handler's own docstring says only lost books are non-borrowable), so
borrowing the damaged book 2 succeeds and inserts a borrow row. -/
theorem damaged_book_borrowable :
    (create_borrow 0 (some 1) (some 2) (some 14) "" false dbDamaged).1 = .ok 1 ∧
    (create_borrow 0 (some 1) (some 2) (some 14) "" false dbDamaged).2.borrows
      = [⟨1, 1, 2, 0, 14, none, 0, none, "borrowed", ""⟩] := by
  decide

/-- C6 (amended): a book with status `lost` is non-borrowable —
`create_borrow` against it fails with the book-lost error — and after
`mark_status(borrow_id, "lost")` on a borrow, both the borrow's status
and the referenced book's status become `lost`, and a subsequent
`create_borrow` against that book fails with the book-lost error.
(A `damaged` book, contrary to the original claim, stays borrowable.) -/
theorem lost_book_not_borrowable (db : DB) (today : Int) (borrow_id rid : Nat)
    (days : Int) (notes : String) (f : Bool) :
    (∀ r bk bid, findReader db rid = some r → r.status = "active" →
      findBook db bid = some bk → bk.status = "lost" →
      create_borrow today (some rid) (some bid) (some days) notes f db
        = (.error .bookLost, db)) ∧
    (∀ b bk, findBorrow db borrow_id = some b → findBook db b.book_id = some bk →
      findBorrow (update_borrow_status today (some ("lost")) borrow_id false db).2 borrow_id
        = some { b with status := "lost" } ∧
      findBook (update_borrow_status today (some ("lost")) borrow_id false db).2 b.book_id
        = some { bk with status := "lost" } ∧
      (∀ r, findReader db rid = some r → r.status = "active" →
        create_borrow today (some rid) (some b.book_id) (some days) notes f
            (update_borrow_status today (some ("lost")) borrow_id false db).2
          = (.error .bookLost,
             (update_borrow_status today (some ("lost")) borrow_id false db).2))) := by
  constructor
  · intro r bk bid hr hra hb hlost
    exact create_borrow_lost_aux db today rid bid days notes f r bk hr hra hb hlost
  · intro b bk hbor hbk
    have hvs : (!(validStatuses.contains ("lost"))) = false := by decide
    have hr1 : (("lost" : String) == "returned") = false := by decide
    have hr2 : (("lost" : String) == "lost") = true := by decide
    have hmark : update_borrow_status today (some ("lost")) borrow_id false db
        = (.ok (), { db with
            borrows := db.borrows.map (fun x =>
              if x.id == borrow_id then { x with status := "lost" } else x),
            books := db.books.map (fun x =>
              if x.id == b.book_id then { x with status := "lost" } else x) }) := by
      simp only [update_borrow_status.eq_def, hvs, hbor, hr1, hr2, Bool.false_eq_true,
        if_false, if_true]
    have hbor2 : db.borrows.find? (fun x => x.id == borrow_id) = some b := hbor
    have hbk2 : db.books.find? (fun x => x.id == b.book_id) = some bk := hbk
    have hborid : (b.id == borrow_id) = true := by
      have h := List.find?_some hbor2
      simpa using h
    have hbkid : (bk.id == b.book_id) = true := by
      have h := List.find?_some hbk2
      simpa using h
    have hfindBor : findBorrow (update_borrow_status today (some ("lost")) borrow_id false db).2 borrow_id
        = some { b with status := "lost" } := by
      rw [hmark]
      unfold findBorrow
      rw [find?_map_eq_some
            (g := fun x => if x.id == borrow_id then { x with status := "lost" } else x)
            (fun x => by by_cases h : x.id == borrow_id <;> simp [h]) hbor2]
      rw [if_pos hborid]
    have hfindBk : findBook (update_borrow_status today (some ("lost")) borrow_id false db).2 b.book_id
        = some { bk with status := "lost" } := by
      rw [hmark]
      unfold findBook
      rw [find?_map_eq_some
            (g := fun x => if x.id == b.book_id then { x with status := "lost" } else x)
            (fun x => by by_cases h : x.id == b.book_id <;> simp [h]) hbk2]
      rw [if_pos hbkid]
    refine ⟨hfindBor, hfindBk, ?_⟩
    intro r hr hra
    have hr' : findReader (update_borrow_status today (some ("lost")) borrow_id false db).2 rid
        = some r := by
      rw [hmark]
      exact hr
    exact create_borrow_lost_aux _ today rid b.book_id days notes f r
      { bk with status := "lost" } hr' hra hfindBk rfl

/-- Witness for C6 (amended): marking the active borrow 1 lost makes
borrow 1 and book 10 `lost`, and borrowing book 10 afterwards fails with
the book-lost error. -/
theorem lost_book_not_borrowable_witness :
    findBorrow (update_borrow_status 0 (some ("lost")) 1 false dbActive).2 1
      = some ⟨1, 1, 10, 0, 14, none, 0, none, "lost", ""⟩ ∧
    findBook (update_borrow_status 0 (some ("lost")) 1 false dbActive).2 10
      = some ⟨10, "lost"⟩ ∧
    create_borrow 0 (some 1) (some 10) (some 14) "" false
        (update_borrow_status 0 (some ("lost")) 1 false dbActive).2
      = (.error .bookLost, (update_borrow_status 0 (some ("lost")) 1 false dbActive).2) := by
  have h := (lost_book_not_borrowable dbActive 0 1 1 14 "" false).2
      ⟨1, 1, 10, 0, 14, none, 0, none, "borrowed", ""⟩ ⟨10, "borrowed"⟩ rfl rfl
  exact ⟨h.1, h.2.1, h.2.2 ⟨1, "active", 3⟩ rfl rfl⟩

/-- C9 counterexample: `borrow_days = 0` is NOT rejected.  The handler
only checks that the field is present; with an otherwise eligible
request, a zero-day borrow succeeds and inserts a row due the same day,
where the claim demands a validation error and no insertion. -/
theorem nonpositive_borrow_days_accepted :
    (create_borrow 100 (some 1) (some 2) (some 0) "" false dbHappy).1 = .ok 1 ∧
    (create_borrow 100 (some 1) (some 2) (some 0) "" false dbHappy).2.borrows
      = [⟨1, 1, 2, 100, 100, none, 0, none, "borrowed", ""⟩] := by
  decide

/-- C9 (amended): `create_borrow` validates only the *presence* of
`reader_id`, `book_id` and `borrow_days` — a request missing one of them
fails with a validation error and changes no state — but the value of
`borrow_days` is never range-checked: for an otherwise eligible request,
any integer `borrow_days` (zero and negative included) is accepted and
the borrow is inserted with `due_date = today + borrow_days`. -/
theorem create_borrow_input_validation (db : DB) (today : Int)
    (rid? bid? : Option Nat) (days? : Option Int) (notes : String) (f : Bool) :
    (rid? = none →
      create_borrow today rid? bid? days? notes f db
        = (.error (.missingField ("reader_id")), db)) ∧
    (∀ rid, rid? = some rid → bid? = none →
      create_borrow today rid? bid? days? notes f db
        = (.error (.missingField ("book_id")), db)) ∧
    (∀ rid bid, rid? = some rid → bid? = some bid → days? = none →
      create_borrow today rid? bid? days? notes f db
        = (.error (.missingField ("borrow_days")), db)) ∧
    (∀ rid bid days r bk, findReader db rid = some r → r.status = "active" →
      findBook db bid = some bk → bk.status ≠ "lost" → bk.status ≠ "borrowed" →
      activeBorrowCount db rid < r.max_borrow_count →
      (create_borrow today (some rid) (some bid) (some days) notes false db).1
        = .ok db.next_borrow_id ∧
      (create_borrow today (some rid) (some bid) (some days) notes false db).2.borrows
        = db.borrows ++
            [{ id := db.next_borrow_id, reader_id := rid, book_id := bid,
               borrow_date := today, due_date := today + days, return_date := none,
               renew_count := 0, fine_amount := none, status := "borrowed",
               notes := notes }]) := by
  refine ⟨?_, ?_, ?_, ?_⟩
  · intro h
    subst h
    simp only [create_borrow.eq_def]
  · intro rid h1 h2
    subst h1
    subst h2
    simp only [create_borrow.eq_def]
  · intro rid bid h1 h2 h3
    subst h1
    subst h2
    subst h3
    simp only [create_borrow.eq_def]
  · intro rid bid days r bk hr hra hb hbl hbb hcnt
    have hra' : (r.status != "active") = false := by simp [hra]
    have hbl' : (bk.status == "lost") = false := by simp [hbl]
    have hbb' : (bk.status == "borrowed") = false := by simp [hbb]
    have hcnt' : ¬ (r.max_borrow_count ≤ activeBorrowCount db rid) := Nat.not_le.mpr hcnt
    simp only [create_borrow.eq_def, hr, hb, hra', hbl', hbb', hcnt', Bool.false_eq_true,
      if_false, if_neg, Bool.true_eq_false, not_false_eq_true, if_true]
    exact ⟨trivial, trivial⟩

/-- Witness for C9 (amended): a *negative* `borrow_days` of −5 is
accepted on the happy-path state and produces a borrow already overdue at
creation (`due_date = 100 − 5 = 95`). -/
theorem create_borrow_input_validation_witness :
    (create_borrow 100 (some 1) (some 2) (some (-5)) "" false dbHappy).1 = .ok 1 ∧
    (create_borrow 100 (some 1) (some 2) (some (-5)) "" false dbHappy).2.borrows
      = [⟨1, 1, 2, 100, 95, none, 0, none, "borrowed", ""⟩] := by
  have h := (create_borrow_input_validation dbHappy 100 (some 1) (some 2) (some (-5))
      "" false).2.2.2 1 2 (-5) ⟨1, "active", 3⟩ ⟨2, "available"⟩ rfl rfl rfl
      (by decide) (by decide) (by decide)
  exact h

/-- C5 counterexample: the invariant is NOT preserved by every operation.
(a) `update_reader` may lower `max_borrow_count` below the reader's
current active-borrow count with no check: reader 1 holds 2 of 2 books;
setting the limit to 1 succeeds and breaks the invariant.
(b) `update_borrow_status` accepts target status `borrowed` and flips an
already-returned borrow back to `borrowed` with no limit check: reader 1
(limit 1, one active borrow) ends with 2 active borrows. -/
theorem reader_limit_violations :
    readerLimitOK dbAtLimit = true ∧
    (update_reader_max 1 1 dbAtLimit).1 = .ok () ∧
    readerLimitOK (update_reader_max 1 1 dbAtLimit).2 = false ∧
    readerLimitOK dbOneReturned = true ∧
    (update_borrow_status 0 (some ("borrowed")) 2 false dbOneReturned).1 = .ok () ∧
    readerLimitOK (update_borrow_status 0 (some ("borrowed")) 2 false dbOneReturned).2
      = false := by
  decide

/-- Inserting one borrow row for reader `rid` keeps the invariant when
`rid`'s active count was strictly below their limit (reader ids must be
unique, as the primary key guarantees). -/
theorem limit_after_insert (db : DB) (rid : Nat) (nb : Borrow)
    (books' : List Book) (n : Nat) (r : Reader)
    (hnbr : nb.reader_id = rid)
    (hnd : (db.readers.map Reader.id).Nodup)
    (hr : findReader db rid = some r)
    (hcnt : activeBorrowCount db rid < r.max_borrow_count)
    (hinv : readerLimitOK db = true) :
    readerLimitOK
      { readers := db.readers, books := books',
        borrows := db.borrows ++ [nb], next_borrow_id := n } = true := by
  have hr' : db.readers.find? (fun a => a.id == rid) = some r := hr
  have hrm : r ∈ db.readers := List.mem_of_find?_eq_some hr'
  have hrid : r.id = rid := by
    have h := List.find?_some hr'
    simpa using h
  rw [readerLimitOK_iff] at hinv ⊢
  intro x hx
  have hx' : x ∈ db.readers := hx
  have hcount : activeBorrowCount
      { readers := db.readers, books := books', borrows := db.borrows ++ [nb],
        next_borrow_id := n } x.id
      = activeBorrowCount db x.id
        + (List.filter (fun b => b.reader_id == x.id && b.status == "borrowed") [nb]).length := by
    unfold activeBorrowCount
    rw [List.filter_append, List.length_append]
  by_cases hid : rid = x.id
  · have hxr : x = r := List.inj_on_of_nodup_map hnd hx' hrm (hid.symm.trans hrid.symm)
    have hlen : (List.filter (fun b => b.reader_id == x.id && b.status == "borrowed") [nb]).length
        ≤ 1 := by
      by_cases hp : (nb.reader_id == x.id && nb.status == "borrowed") = true <;>
        simp [List.filter_singleton, hp]
    rw [hcount]
    have h1 : activeBorrowCount db x.id = activeBorrowCount db rid := by rw [← hid]
    have h2 : x.max_borrow_count = r.max_borrow_count := by rw [hxr]
    rw [h1, h2]
    omega
  · have hp : (nb.reader_id == x.id && nb.status == "borrowed") = false := by
      have h0 : (nb.reader_id == x.id) = false := by
        rw [hnbr]
        exact beq_eq_false_iff_ne.mpr hid
      simp [h0]
    rw [hcount]
    simp only [List.filter_singleton, hp, Bool.cond_false, List.length_nil, Nat.add_zero]
    exact hinv x hx'

/-- Helper: `create_borrow` preserves the borrow-limit invariant: every rejection
leaves the state unchanged, and the success path inserts one `borrowed`
row only after checking the count is strictly below the limit. -/
theorem create_borrow_keeps_limit (db : DB)
    (hnd : (db.readers.map Reader.id).Nodup) (hinv : readerLimitOK db = true)
    (today : Int) (rid? bid? : Option Nat) (days? : Option Int) (notes : String)
    (f : Bool) :
    readerLimitOK (create_borrow today rid? bid? days? notes f db).2 = true := by
  rcases rid? with _ | rid
  · exact hinv
  rcases bid? with _ | bid
  · exact hinv
  rcases days? with _ | days
  · exact hinv
  rcases hr : findReader db rid with _ | r
  · have he : create_borrow today (some rid) (some bid) (some days) notes f db
        = (.error .readerNotFound, db) := by
      simp only [create_borrow.eq_def, hr]
    rw [he]
    exact hinv
  by_cases hra : (r.status != "active") = true
  · have he : create_borrow today (some rid) (some bid) (some days) notes f db
        = (.error .readerNotActive, db) := by
      simp only [create_borrow.eq_def, hr, hra, if_true]
    rw [he]
    exact hinv
  have hra' : (r.status != "active") = false := by simpa using hra
  rcases hb : findBook db bid with _ | bk
  · have he : create_borrow today (some rid) (some bid) (some days) notes f db
        = (.error .bookNotFound, db) := by
      simp only [create_borrow.eq_def, hr, hra', hb, Bool.false_eq_true, if_false]
    rw [he]
    exact hinv
  by_cases hbl : (bk.status == "lost") = true
  · have he : create_borrow today (some rid) (some bid) (some days) notes f db
        = (.error .bookLost, db) := by
      simp only [create_borrow.eq_def, hr, hra', hb, hbl, Bool.false_eq_true, if_false,
        if_true]
    rw [he]
    exact hinv
  have hbl' : (bk.status == "lost") = false := by simpa using hbl
  by_cases hbb : (bk.status == "borrowed") = true
  · have he : create_borrow today (some rid) (some bid) (some days) notes f db
        = (.error .bookBorrowed, db) := by
      simp only [create_borrow.eq_def, hr, hra', hb, hbl', hbb, Bool.false_eq_true,
        if_false, if_true]
    rw [he]
    exact hinv
  have hbb' : (bk.status == "borrowed") = false := by simpa using hbb
  by_cases hcnt : r.max_borrow_count ≤ activeBorrowCount db rid
  · have he : create_borrow today (some rid) (some bid) (some days) notes f db
        = (.error .borrowLimitReached, db) := by
      simp only [create_borrow.eq_def, hr, hra', hb, hbl', hbb', Bool.false_eq_true,
        if_false, if_pos hcnt]
    rw [he]
    exact hinv
  rcases f with _ | _
  · have he : (create_borrow today (some rid) (some bid) (some days) notes false db).2
        = { readers := db.readers,
            books := db.books.map (fun x =>
              if x.id == bid then { x with status := "borrowed" } else x),
            borrows := db.borrows ++
              [⟨db.next_borrow_id, rid, bid, today, today + days, none, 0, none,
                "borrowed", notes⟩],
            next_borrow_id := db.next_borrow_id + 1 } := by
      simp only [create_borrow.eq_def, hr, hra', hb, hbl', hbb', Bool.false_eq_true,
        if_false, if_neg hcnt, Bool.true_eq_false, not_false_eq_true, if_true]
    rw [he]
    exact limit_after_insert db rid
      ⟨db.next_borrow_id, rid, bid, today, today + days, none, 0, none, "borrowed", notes⟩
      _ _ r rfl hnd hr (Nat.lt_of_not_le hcnt) hinv
  · have he : create_borrow today (some rid) (some bid) (some days) notes true db
        = (.error .storageError, db) := by
      simp only [create_borrow.eq_def, hr, hra', hb, hbl', hbb', Bool.false_eq_true,
        if_false, if_neg hcnt, if_true]
    rw [he]
    exact hinv

/-- Helper: `return_book` preserves the borrow-limit invariant: it only ever
moves a borrow out of status `borrowed`. -/
theorem return_book_keeps_limit (db : DB) (hinv : readerLimitOK db = true)
    (today : Int) (bid : Nat) (f1 f2 : Bool) :
    readerLimitOK (return_book today bid f1 f2 db).2 = true := by
  rcases hb : findActiveBorrow db bid with _ | b
  · have he : return_book today bid f1 f2 db = (.error .notFound, db) := by
      simp only [return_book.eq_def, hb]
    rw [he]
    exact hinv
  have hid : ∀ x : Borrow,
      ((if x.id == bid then
          { x with status := "returned", return_date := some today } else x) : Borrow).reader_id
        = x.reader_id := by
    intro x
    by_cases h : (x.id == bid) = true <;> simp [h]
  have hst : ∀ x : Borrow,
      ((if x.id == bid then
          { x with status := "returned", return_date := some today } else x) : Borrow).status
          = "borrowed" →
        x.status = "borrowed" := by
    intro x hbs
    by_cases h : (x.id == bid) = true
    · rw [if_pos h] at hbs
      have hne : ¬ (("returned" : String) = "borrowed") := by decide
      exact absurd hbs hne
    · rwa [if_neg h] at hbs
  rcases f1 with _ | _ <;> rcases f2 with _ | _ <;>
    simp only [return_book.eq_def, hb, Bool.false_eq_true, if_false, if_true]
  · exact readerLimitOK_of_map db _ _ _ hid hst hinv
  · exact readerLimitOK_of_map db _ _ _ hid hst hinv
  · exact readerLimitOK_mono db { db with books := db.books.map (fun x =>
        if x.id == b.book_id then { x with status := "available" } else x) }
      rfl (fun _ => Nat.le_refl _) hinv
  · exact hinv

/-- Helper: `renew_book` preserves the borrow-limit invariant: it never changes
`reader_id` or `status` of any row. -/
theorem renew_book_keeps_limit (db : DB) (hinv : readerLimitOK db = true)
    (bid : Nat) (ed? : Option Int) :
    readerLimitOK (renew_book bid ed? db).2 = true := by
  simp only [renew_book.eq_def]
  split
  · exact hinv
  split
  · exact hinv
  split
  · exact hinv
  exact readerLimitOK_of_map db _ _ _
    (fun x => by by_cases h : (x.id == bid) = true <;> simp [h])
    (fun x hbs => by
      by_cases h : (x.id == bid) = true
      · rw [if_pos h] at hbs
        exact hbs
      · rwa [if_neg h] at hbs)
    hinv

/-- Helper: `apply_fine` preserves the borrow-limit invariant: it only ever moves
a borrow out of status `borrowed` (into `fined`). -/
theorem apply_fine_keeps_limit (db : DB) (hinv : readerLimitOK db = true)
    (bid : Nat) (amt? : Option Int) :
    readerLimitOK (apply_fine bid amt? db).2 = true := by
  rcases amt? with _ | amt
  · exact hinv
  simp only [apply_fine.eq_def]
  split
  · exact hinv
  split
  · exact hinv
  exact readerLimitOK_of_map db _ _ _
    (fun x => by by_cases h : (x.id == bid) = true <;> simp [h])
    (fun x hbs => by
      by_cases h : (x.id == bid) = true
      · rw [if_pos h] at hbs
        have hne : ¬ (("fined" : String) = "borrowed") := by decide
        exact absurd hbs hne
      · rwa [if_neg h] at hbs)
    hinv

/-- Helper: `update_borrow_status` with any target status other than `borrowed`
preserves the borrow-limit invariant (target `borrowed` does not — see
the C5 counterexample). -/
theorem update_borrow_status_keeps_limit (db : DB) (hinv : readerLimitOK db = true)
    (today : Int) (s : String) (hs : s ≠ "borrowed") (bid : Nat) (f : Bool) :
    readerLimitOK (update_borrow_status today (some s) bid f db).2 = true := by
  simp only [update_borrow_status.eq_def]
  split
  · exact hinv
  split
  · exact hinv
  split
  · exact hinv
  exact readerLimitOK_of_map db _ _ _
    (fun x => by
      by_cases h : (x.id == bid) = true
      · by_cases h2 : (s == "returned") = true <;> simp [h, h2]
      · simp [h])
    (fun x hbs => by
      by_cases h : (x.id == bid) = true
      · rw [if_pos h] at hbs
        by_cases h2 : (s == "returned") = true
        · rw [if_pos h2] at hbs
          exact absurd hbs hs
        · rw [if_neg h2] at hbs
          exact absurd hbs hs
      · rwa [if_neg h] at hbs)
    hinv

/-- C5 (amended): the borrow-limit invariant — every reader's count of
`borrowed` ledger rows is at most their `max_borrow_count` — is preserved
by the lifecycle operations `create_borrow` (which checks the limit
before inserting), `return_book`, `renew`, `apply_fine`, and
`mark_status` with any target status other than `borrowed` (assuming
unique reader ids, as the primary key guarantees).  It is NOT preserved
by every operation of the system: `update_reader` can lower
`max_borrow_count` below the current active count, and `mark_status`
with target `borrowed` re-activates a borrow with no limit check — see
the counterexample. -/
theorem lifecycle_preserves_reader_limit (db : DB)
    (hnd : (db.readers.map Reader.id).Nodup) (hinv : readerLimitOK db = true)
    (today : Int) (rid? bid? : Option Nat) (days? : Option Int) (notes : String)
    (f f1 f2 : Bool) (borrowId : Nat) (ed? amt? : Option Int) (s : String)
    (hs : s ≠ "borrowed") :
    readerLimitOK (create_borrow today rid? bid? days? notes f db).2 = true ∧
    readerLimitOK (return_book today borrowId f1 f2 db).2 = true ∧
    readerLimitOK (renew_book borrowId ed? db).2 = true ∧
    readerLimitOK (apply_fine borrowId amt? db).2 = true ∧
    readerLimitOK (update_borrow_status today (some s) borrowId f db).2 = true :=
  ⟨create_borrow_keeps_limit db hnd hinv today rid? bid? days? notes f,
   return_book_keeps_limit db hinv today borrowId f1 f2,
   renew_book_keeps_limit db hinv borrowId ed?,
   apply_fine_keeps_limit db hinv borrowId amt?,
   update_borrow_status_keeps_limit db hinv today s hs borrowId f⟩

/-- Witness for C5 (amended): on the one-active-borrow state, borrowing
another book, returning, renewing, fining, and marking damaged all keep
the invariant. -/
theorem lifecycle_preserves_reader_limit_witness :
    readerLimitOK (create_borrow 0 (some 1) (some 10) (some 14) "" false dbActive).2
      = true ∧
    readerLimitOK (return_book 0 1 false false dbActive).2 = true ∧
    readerLimitOK (renew_book 1 (some 30) dbActive).2 = true ∧
    readerLimitOK (apply_fine 1 (some 5) dbActive).2 = true ∧
    readerLimitOK (update_borrow_status 0 (some ("damaged")) 1 false dbActive).2 = true := by
  exact lifecycle_preserves_reader_limit dbActive (by decide) (by decide) 0 (some 1)
    (some 10) (some 14) "" false false false 1 (some 30) (some 5) "damaged" (by decide)
